import Mathlib

/-
  Verification development for the session-lifecycle logic of
  `chatbot/discord_bot/cogs/chat_cog/chat_cog.py`.

  The Python code is shallowly embedded: the cog state (the
  `_active_threads` dict) is an association list threaded through each
  handler, external calls (Discord I/O, the LLM exchange, the history
  reload) are given their outcomes as explicit `Except` parameters, and
  user-visible side effects (thread sends, message edits, log lines) are
  accumulated in an action trace.  `await` points matter for the
  concurrency claims, so `_create_chat` is additionally given as a
  small-step task semantics with one suspension per `await` in the source.
-/

namespace ChatCog

/-- Errors a modelled Python call can raise.  `apiError` stands for any
platform or upstream exception carrying a message; `indexError` is the
built-in raised by out-of-range string indexing. -/
inductive PyError where
  | indexError
  | apiError (msg : String)
deriving DecidableEq, Repr

/-- Rendering of an exception as Python string-formats it into messages. -/
def errText : PyError → String
  | .indexError => "IndexError"
  | .apiError msg => msg

/-- Role of one remembered conversation turn. -/
inductive Role where
  | human
  | ai
deriving DecidableEq, Repr

/-- One turn held in the assistant memory buffer. -/
structure Turn where
  role : Role
  text : String
deriving DecidableEq, Repr

/-- The assistant as the cog sees it: a conversation memory buffer
(`ConversationBufferMemory` in course_assistant.py, an ordered list of
human/ai turns). -/
structure CourseAssistant where
  memory : List Turn
deriving DecidableEq, Repr

/-- `CourseAssistant()` — chat_cog.py line 175: a fresh assistant with an
empty memory buffer. -/
def CourseAssistant.new : CourseAssistant := { memory := [] }

/-- `assistant.async_process_input(input_text)` — the chain run appends the
human input and the model reply to the memory buffer and returns the
reply.  The model exchange is external; its outcome is the `exchange`
parameter.  On an upstream error nothing is saved to memory and the
exception propagates. -/
def CourseAssistant.async_process_input (a : CourseAssistant) (input_text : String)
    (exchange : Except PyError String) : Except PyError (CourseAssistant × String) :=
  match exchange with
  | .error e => .error e
  | .ok reply =>
      .ok ({ memory := a.memory ++ [{ role := .human, text := input_text },
                                    { role := .ai, text := reply }] }, reply)

/-- Modelled from the spec: `assistant.load_memory_from_thread` is imported
from a module that is not part of the provided sources.  Per spec section 4.2
it fetches the thread history, reconstructs turns and replaces the memory
buffer, and reports reconstruction failures as an error; the outcome of
the platform fetch/reconstruction is the `fetched` parameter. -/
def CourseAssistant.load_memory_from_thread (_a : CourseAssistant)
    (fetched : Except PyError (List Turn)) : Except PyError CourseAssistant :=
  match fetched with
  | .error e => .error e
  | .ok turns => .ok { memory := turns }

/-- A Discord thread as the cog reads it: stable id, owner id, and the
prior message count the platform reports. -/
structure DThread where
  id : Nat
  ownerId : Nat
  messageCount : Nat
deriving DecidableEq, Repr

/-- The channel a message arrived on: either a `discord.Thread` or some
other channel kind. -/
inductive DChannel where
  | thread (t : DThread)
  | other (channelId : Nat)
deriving DecidableEq, Repr

/-- An incoming Discord message as `on_message` reads it. -/
structure DMessage where
  authorId : Nat
  authorName : String
  channel : DChannel
  content : String
deriving DecidableEq, Repr

/-- A raw reaction event as `on_raw_reaction_add` reads it. -/
structure ReactionPayload where
  user_id : Nat
  emoji_name : String
  channel_id : Nat
  message_id : Nat
deriving DecidableEq, Repr

/-- Default values of the pydantic `Chat` model fields `started_at` and
`chat_id` (chat_cog.py lines 29-30).  The defaults `datetime.now().isoformat()`
and `uuid.uuid4()` are expressions of the class body: they ran once, when
the class was defined at import time, and every later construction that
does not pass the fields explicitly receives these same stored values. -/
structure ChatDefaults where
  started_at : String
  chat_id : Nat
deriving DecidableEq, Repr

/-- The `Chat` record (chat_cog.py lines 24-31).  Its fields are exactly
`title`, `thread`, `assistant`, `started_at`, `chat_id`, `messages`; the
thread is kept by id here. -/
structure Chat where
  title : String
  threadId : Nat
  assistant : CourseAssistant
  started_at : String
  chat_id : Nat
  messages : List String
deriving DecidableEq, Repr

/-- `Chat(title=..., thread=..., assistant=...)` as called at chat_cog.py
line 190: `started_at` and `chat_id` are filled from the class-definition
time defaults, `messages` from the empty-list default. -/
def Chat.construct (defaults : ChatDefaults) (title : String) (thread : DThread)
    (assistant : CourseAssistant) : Chat :=
  { title := title
    threadId := thread.id
    assistant := assistant
    started_at := defaults.started_at
    chat_id := defaults.chat_id
    messages := [] }

/-- The same construction with the wall-clock reading and the fresh uuid
that `datetime.now()` and `uuid.uuid4()` would yield at construction time
made explicit: the construction does not consult them, because the field
defaults were already evaluated once at class definition. -/
def Chat.construct_at (defaults : ChatDefaults) (_now : String) (_fresh_uuid : Nat)
    (title : String) (thread : DThread) (assistant : CourseAssistant) : Chat :=
  Chat.construct defaults title thread assistant

/-- The `_active_threads` dict: thread id to live `Chat`. -/
abbrev Registry := List (Nat × Chat)

/-- Dict lookup, `self._active_threads[id]` / `id in self._active_threads`. -/
def Registry.lookup : Registry → Nat → Option Chat
  | [], _ => none
  | (k, c) :: rest, id => if k = id then some c else Registry.lookup rest id

/-- Dict assignment `self._active_threads[id] = chat`: replaces an existing
binding or appends a new one. -/
def Registry.insert : Registry → Nat → Chat → Registry
  | [], id, c => [(id, c)]
  | (k, c0) :: rest, id, c =>
      if k = id then (id, c) :: rest else (k, c0) :: Registry.insert rest id c

/-- Observable side effects of a handler run, in order: messages sent into
a thread, edits of the pending bot message, thread creation, and log /
console output. -/
inductive Action where
  | send (threadId : Nat) (text : String)
  | edit (text : String)
  | createThread (name : String)
  | logWarning (text : String)
  | logInfo (text : String)
  | logError (text : String)
  | printError (text : String)
deriving DecidableEq, Repr

/-- ASCII apostrophe, kept out of string literals. -/
def apos : String := String.singleton (Char.ofNat 39)

/-- The `TIME_PASSED_MESSAGE` prompt constant, chat_cog.py lines 15-19. -/
def TIME_PASSED_MESSAGE : String :=
  "\n> Some time passed and your memory of this conversation reset needed to be reloaded from the thread, but we" ++ apos ++ "re good now!\n> \n> Provide the human with a brief summary of what you remember about them and this conversation so far.\n"

/-- Text sent while reloading memory, chat_cog.py line 179. -/
def reloadingText : String :=
  "Reloading memory from thread (might take a while if this was a long conversation)..."

/-- The reload banner prefix, chat_cog.py line 183. -/
def preText : String :=
  "> Memory reloaded from thread - Here" ++ apos ++ "s what we told the bot: ```" ++
    TIME_PASSED_MESSAGE ++ "```> ...and it replied:"

/-- Placeholder sent before the model call, chat_cog.py line 134. -/
def awaitingText : String := "`Awaiting bot response...`"

/-- The in-thread error reply, chat_cog.py line 144. -/
def errorReplyText (e : String) : String :=
  "Oh no, something went wrong! \nHere is the error:\n ```\n" ++ e ++ "\n```"

/-- Warning logged on a duplicate create, chat_cog.py line 172. -/
def alreadyExistsText (threadId : Nat) : String :=
  "Thread " ++ toString threadId ++ " already exists! Returning existing chat"

/-- Info logged for a non-admin reaction, chat_cog.py line 90. -/
def notAdminText (userId : Nat) : String :=
  "User " ++ toString userId ++ " is not an admin user"

/-- Info logged on message receipt, chat_cog.py line 106. -/
def receivedText (content : String) : String :=
  "Received message: " ++ content

/-- Info logged before dispatch, chat_cog.py line 129. -/
def sendingText (content : String) : String :=
  "Sending message to the agent: " ++ content

/-- The trigger emoji checked at chat_cog.py line 85. -/
def brainEmoji : String := "🧠"

/-- `_create_chat_title_string`, chat_cog.py lines 146-147. -/
def create_chat_title_string (user_name : String) (bot_name : String) : String :=
  user_name ++ apos ++ "s chat with " ++ bot_name

/-- `_create_chat` (chat_cog.py lines 167-197).  External outcomes are
explicit: `loadOutcome` is what `load_memory_from_thread` yields and
`exchangeOutcome` what the model exchange for `TIME_PASSED_MESSAGE`
yields; Discord sends and edits are treated as delivered and recorded as
actions.  The result is the returned value or propagated exception,
together with the updated `_active_threads` dict and the action trace. -/
def create_chat (defaults : ChatDefaults)
    (loadOutcome : Except PyError (List Turn))
    (exchangeOutcome : Except PyError String)
    (reg : Registry) (thread : DThread) (title : String) :
    Except PyError Chat × Registry × List Action :=
  match reg.lookup thread.id with
  | some chat =>
      -- line 171-173: early return of the existing chat
      (.ok chat, reg, [.logWarning (alreadyExistsText thread.id)])
  | none =>
      let assistant := CourseAssistant.new
      if thread.messageCount > 0 then
        -- line 178: message = await thread.send("Reloading memory ...")
        let acts1 : List Action := [.send thread.id reloadingText]
        -- line 180: await assistant.load_memory_from_thread(...)
        match assistant.load_memory_from_thread loadOutcome with
        | .error e => (.error e, reg, acts1)
        | .ok assistant1 =>
            -- line 184: await message.edit(content=f"{prefix}\n\n...")
            let acts2 := acts1 ++ [.edit (preText ++ "\n\n...")]
            -- line 185: bot_response = await assistant.async_process_input(TIME_PASSED_MESSAGE)
            match assistant1.async_process_input TIME_PASSED_MESSAGE exchangeOutcome with
            | .error e => (.error e, reg, acts2)
            | .ok (assistant2, bot_response) =>
                -- line 187: await message.edit(content=reply)
                let acts3 := acts2 ++ [.edit (preText ++ "\n\n" ++ bot_response)]
                -- lines 190-197: construct the Chat, store it, return it
                let chat := Chat.construct defaults title thread assistant2
                (.ok chat, reg.insert thread.id chat, acts3)
      else
        let chat := Chat.construct defaults title thread assistant
        (.ok chat, reg.insert thread.id chat, [])

/-- `_async_send_message_to_bot` (chat_cog.py lines 133-144).  Sends the
placeholder, runs the model exchange (outcome `exchangeOutcome`), and
either edits in the reply or, on any exchange exception, logs it and
edits in the visible error message.  Returns the chat as it stands after
the call (the failed turn is not appended to memory) and the actions. -/
def async_send_message_to_bot (exchangeOutcome : Except PyError String)
    (chat : Chat) (input_text : String) : Chat × List Action :=
  let acts0 : List Action := [.send chat.threadId awaitingText]
  match chat.assistant.async_process_input input_text exchangeOutcome with
  | .ok (assistant1, bot_response) =>
      ({ chat with assistant := assistant1 }, acts0 ++ [.edit bot_response])
  | .error e =>
      (chat, acts0 ++ [.logError (errText e), .edit (errorReplyText (errText e))])

/-- `on_message` (chat_cog.py lines 104-131).  Guards in source order:
self-authored, non-thread channel, thread not owned by the bot, then the
unguarded `message.content[0]` tilde test, then the registry lookup with
creation on `KeyError`, then dispatch.  The chat object is mutated in
place in Python, so the dispatched chat is written back to its registry
slot here. -/
def on_message (defaults : ChatDefaults)
    (loadOutcome : Except PyError (List Turn))
    (createExchange dispatchExchange : Except PyError String)
    (botUserId : Nat) (botName : String)
    (reg : Registry) (message : DMessage) :
    Except PyError Unit × Registry × List Action :=
  let recv := Action.logInfo (receivedText message.content)
  if message.authorId = botUserId then (.ok (), reg, [recv])
  else
    match message.channel with
    | .other _ => (.ok (), reg, [recv])
    | .thread thread =>
        if thread.ownerId ≠ botUserId then (.ok (), reg, [recv])
        else
          -- line 121: message.content[0] — IndexError on empty content
          match message.content.data with
          | [] => (.error .indexError, reg, [recv])
          | c :: _ =>
              if c = '~' then (.ok (), reg, [recv])
              else
                match reg.lookup thread.id with
                | some chat =>
                    let r := async_send_message_to_bot dispatchExchange chat message.content
                    (.ok (), reg.insert thread.id r.1,
                      [recv, .logInfo (sendingText message.content)] ++ r.2)
                | none =>
                    match create_chat defaults loadOutcome createExchange reg thread
                        (create_chat_title_string message.authorName botName) with
                    | (.error e, reg1, acts) => (.error e, reg1, recv :: acts)
                    | (.ok chat, reg1, acts) =>
                        let r := async_send_message_to_bot dispatchExchange chat message.content
                        (.ok (), reg1.insert thread.id r.1,
                          recv :: acts ++ [.logInfo (sendingText message.content)] ++ r.2)

/-- `_spawn_thread` (chat_cog.py lines 149-165): create a thread off the
message, create the chat for it, send the intro embed when no initial
text was given, and dispatch the initial input.  `newThread` is the
thread the platform returns from `message.create_thread`. -/
def spawn_thread (defaults : ChatDefaults)
    (loadOutcome : Except PyError (List Turn))
    (createExchange dispatchExchange : Except PyError String)
    (newThread : DThread) (botName : String) (reg : Registry)
    (authorName : String) (initial_text_input : Option String) :
    Except PyError Unit × Registry × List Action :=
  let chat_title := create_chat_title_string authorName botName
  let acts0 : List Action := [.createThread chat_title]
  match create_chat defaults loadOutcome createExchange reg newThread chat_title with
  | (.error e, reg1, acts) => (.error e, reg1, acts0 ++ acts)
  | (.ok chat, reg1, acts) =>
      match initial_text_input with
      | some text =>
          let r := async_send_message_to_bot dispatchExchange chat text
          (.ok (), reg1.insert newThread.id r.1, acts0 ++ acts ++ r.2)
      | none =>
          let text := "A human has requested a chat!"
          let acts1 := acts ++ [.send chat.threadId "initial message embed"]
          let r := async_send_message_to_bot dispatchExchange chat text
          (.ok (), reg1.insert newThread.id r.1, acts0 ++ acts1 ++ r.2)

/-- `on_raw_reaction_add` (chat_cog.py lines 77-102).  Guards in source
order: self reaction, wrong emoji, non-admin reactor; then the channel and
message are fetched (outcome `fetchOutcome`) and the thread is spawned
with the message content as initial input.  The whole body sits in a
try/except that prints the exception. -/
def on_raw_reaction_add (defaults : ChatDefaults)
    (loadOutcome : Except PyError (List Turn))
    (createExchange dispatchExchange : Except PyError String)
    (fetchOutcome : Except PyError DMessage)
    (newThread : DThread) (admin_users : List Nat)
    (botUserId : Nat) (botName : String)
    (reg : Registry) (payload : ReactionPayload) : Registry × List Action :=
  if payload.user_id = botUserId then (reg, [])
  else if payload.emoji_name ≠ brainEmoji then (reg, [])
  else if payload.user_id ∉ admin_users then (reg, [.logInfo (notAdminText payload.user_id)])
  else
    match fetchOutcome with
    | .error e => (reg, [.printError ("Error: " ++ errText e)])
    | .ok message =>
        match spawn_thread defaults loadOutcome createExchange dispatchExchange
            newThread botName reg message.authorName (some message.content) with
        | (.error e, reg1, acts) => (reg1, acts ++ [.printError ("Error: " ++ errText e)])
        | (.ok _, reg1, acts) => (reg1, acts)

/-- The `/chat` slash command (chat_cog.py lines 55-75): refuse channels
outside `ALLOWED_CHANNELS`, otherwise post the title card and spawn a
thread from it. -/
def chat_command (defaults : ChatDefaults)
    (loadOutcome : Except PyError (List Turn))
    (createExchange dispatchExchange : Except PyError String)
    (newThread : DThread) (allowed_channels : List Nat)
    (botName : String) (reg : Registry)
    (ctxChannelId : Nat) (userName : String)
    (initial_text_input : Option String) :
    Except PyError Unit × Registry × List Action :=
  if ctxChannelId ∉ allowed_channels then
    (.ok (), reg, [.logInfo ("Channel " ++ toString ctxChannelId ++ " is not allowed to start a chat")])
  else
    let acts0 : List Action := [.send ctxChannelId "title card embed"]
    match spawn_thread defaults loadOutcome createExchange dispatchExchange
        newThread botName reg userName initial_text_input with
    | (r, reg1, acts) => (r, reg1, acts0 ++ acts)

/-
  Small-step view of `_create_chat` for the concurrency claims.  asyncio
  runs the code between two `await`s atomically; the suspension points in
  `_create_chat` are the `thread.send` (line 178), the history reload
  (line 180), the two message edits (lines 184, 187) and the model
  exchange (line 185).  A task is the continuation of one `_create_chat`
  call at such a point; the shared state is the `_active_threads` dict
  plus the observable action trace and a ghost list of the `Chat` objects
  constructed by completed factory runs.
-/

/-- External outcomes feeding one `_create_chat` task. -/
structure TaskEnv where
  loadOutcome : Except PyError (List Turn)
  exchangeOutcome : Except PyError String
deriving Repr

/-- Continuation of one `_create_chat` call at a suspension point. -/
inductive CreateTask where
  | ready
  | awaitSend (assistant : CourseAssistant)
  | awaitLoad (assistant : CourseAssistant)
  | awaitEditDots (assistant : CourseAssistant)
  | awaitExchange (assistant : CourseAssistant)
  | awaitEditReply (assistant : CourseAssistant) (bot_response : String)
  | done (r : Except PyError Chat)
deriving Repr

/-- State shared by the concurrent tasks: the dict, the action trace and
the ghost trace of constructed chats. -/
structure GlobalState where
  reg : Registry
  actions : List Action
  created : List Chat
deriving Repr

/-- One `_create_chat` caller: its external outcomes, the title it passes,
and its continuation. -/
structure TaskCtx where
  env : TaskEnv
  title : String
  task : CreateTask
deriving Repr

/-- Run one task from its current suspension point up to the next one
(or to completion).  Mirrors `create_chat` segment by segment. -/
def createStep (defaults : ChatDefaults) (thread : DThread)
    (g : GlobalState) (t : TaskCtx) : GlobalState × TaskCtx :=
  match t.task with
  | .ready =>
      match g.reg.lookup thread.id with
      | some chat =>
          ({ g with actions := g.actions ++ [.logWarning (alreadyExistsText thread.id)] },
           { t with task := .done (.ok chat) })
      | none =>
          let assistant := CourseAssistant.new
          if thread.messageCount > 0 then
            -- suspend inside thread.send (line 178)
            (g, { t with task := .awaitSend assistant })
          else
            -- no awaits: construct, store and return atomically
            let chat := Chat.construct defaults t.title thread assistant
            ({ g with reg := g.reg.insert thread.id chat, created := g.created ++ [chat] },
             { t with task := .done (.ok chat) })
  | .awaitSend assistant =>
      -- send resolved; next suspension is the history reload (line 180)
      ({ g with actions := g.actions ++ [.send thread.id reloadingText] },
       { t with task := .awaitLoad assistant })
  | .awaitLoad assistant =>
      match assistant.load_memory_from_thread t.env.loadOutcome with
      | .error e => (g, { t with task := .done (.error e) })
      | .ok assistant1 => (g, { t with task := .awaitEditDots assistant1 })
  | .awaitEditDots assistant =>
      -- first edit resolved (line 184); next suspension is the exchange
      ({ g with actions := g.actions ++ [.edit (preText ++ "\n\n...")] },
       { t with task := .awaitExchange assistant })
  | .awaitExchange assistant =>
      match assistant.async_process_input TIME_PASSED_MESSAGE t.env.exchangeOutcome with
      | .error e => (g, { t with task := .done (.error e) })
      | .ok (assistant2, bot_response) =>
          (g, { t with task := .awaitEditReply assistant2 bot_response })
  | .awaitEditReply assistant bot_response =>
      -- final edit resolved (line 187), then the synchronous tail:
      -- construct the Chat, store it, return it (lines 190-197)
      let chat := Chat.construct defaults t.title thread assistant
      ({ g with reg := g.reg.insert thread.id chat
              , actions := g.actions ++ [.edit (preText ++ "\n\n" ++ bot_response)]
              , created := g.created ++ [chat] },
       { t with task := .done (.ok chat) })
  | .done r => (g, { t with task := .done r })

/-- Run the tasks under a schedule: each entry picks which task advances
by one step; out-of-range indices advance nothing. -/
def runSchedule (defaults : ChatDefaults) (thread : DThread) :
    List Nat → GlobalState → List TaskCtx → GlobalState × List TaskCtx
  | [], g, ts => (g, ts)
  | i :: rest, g, ts =>
      match ts[i]? with
      | none => runSchedule defaults thread rest g ts
      | some t =>
          let s := createStep defaults thread g t
          runSchedule defaults thread rest s.1 (ts.set i s.2)

/-- Invariant of the atomic (no-await) creation path: either nothing was
created yet and every caller still stands before the registry check, or
exactly one chat was created, it is the registry binding, and every
caller is untouched or finished observing that same chat. -/
def AtomicInv (thread : DThread) (g : GlobalState) (ts : List TaskCtx) : Prop :=
  (g.reg.lookup thread.id = none ∧ g.created = [] ∧
    ∀ t ∈ ts, t.task = CreateTask.ready) ∨
  (∃ c, g.reg.lookup thread.id = some c ∧ g.created = [c] ∧
    ∀ t ∈ ts, t.task = CreateTask.ready ∨ t.task = CreateTask.done (.ok c))

/-- Concrete pydantic class-definition-time defaults used in witnesses. -/
def sampleDefaults : ChatDefaults := { started_at := "2023-05-08T00:00:00", chat_id := 42 }

/-- Concrete bot-owned thread with no prior messages. -/
def sampleThread : DThread := { id := 5, ownerId := 1, messageCount := 0 }

/-- Concrete bot-owned thread with prior messages (a resumption case). -/
def historyThread : DThread := { id := 7, ownerId := 1, messageCount := 3 }

/-- Concrete chat used as a pre-existing registry entry in witnesses. -/
def sampleChat : Chat := Chat.construct sampleDefaults "sample" sampleThread CourseAssistant.new

/-- Concrete remembered turn used in witnesses. -/
def sampleTurn : Turn := { role := Role.human, text := "hi" }

/-- Concrete bot-owned thread with one prior message, the racy resumption
case: its creation path suspends between the registry check and the
insert. -/
def raceThread : DThread := { id := 7, ownerId := 1, messageCount := 1 }

/-- First concurrent caller: fresh, successful external outcomes. -/
def taskA : TaskCtx :=
  { env := { loadOutcome := .ok [], exchangeOutcome := .ok "a" }, title := "t1", task := .ready }

/-- Second concurrent caller racing for the same thread. -/
def taskB : TaskCtx :=
  { env := { loadOutcome := .ok [], exchangeOutcome := .ok "b" }, title := "t2", task := .ready }

/-- The registries a handler can produce from `reg`: `reg` itself or the
result of further dict assignments.  No handler shrinks the dict. -/
inductive Extends (reg : Registry) : Registry → Prop
  | refl : Extends reg reg
  | insert (reg1 : Registry) (k : Nat) (c : Chat) :
      Extends reg reg1 → Extends reg (reg1.insert k c)

/-
  Lemmas about the registry dict.
-/

/-- Looking up the key just assigned yields the assigned chat. -/
theorem Registry.lookup_insert_self (reg : Registry) (id : Nat) (c : Chat) :
    (reg.insert id c).lookup id = some c := by
  induction reg with
  | nil => simp [Registry.insert, Registry.lookup]
  | cons p rest ih =>
      obtain ⟨k, c0⟩ := p
      by_cases h : k = id <;> simp [Registry.insert, Registry.lookup, h, ih]

/-- Assignment to one key leaves every other binding unchanged. -/
theorem Registry.lookup_insert_ne (reg : Registry) (id id2 : Nat) (c : Chat)
    (h : id2 ≠ id) : (reg.insert id c).lookup id2 = reg.lookup id2 := by
  induction reg with
  | nil => simp [Registry.insert, Registry.lookup, Ne.symm h]
  | cons p rest ih =>
      obtain ⟨k, c0⟩ := p
      by_cases hk : k = id
      · subst hk
        simp [Registry.insert, Registry.lookup, Ne.symm h]
      · simp [Registry.insert, Registry.lookup, hk, ih]

/-- A present binding stays present across any assignment. -/
theorem Registry.lookup_insert_preserves (reg : Registry) (id k : Nat) (c x : Chat)
    (h : reg.lookup id = some c) : ∃ c1, (reg.insert k x).lookup id = some c1 := by
  by_cases hk : id = k
  · subst hk
    exact ⟨x, Registry.lookup_insert_self reg id x⟩
  · exact ⟨c, by rw [Registry.lookup_insert_ne reg k id x hk]; exact h⟩

/-
  Claim theorems.
-/

/-- Claim C1: when the trigger targets a thread whose id already has a
live session in `_active_threads`, `_create_chat` is a no-op: it returns
exactly the existing chat, the dict is unchanged, no assistant or chat is
constructed, and the only effect is a log warning — nothing is sent to
the end user and no error is raised. -/
theorem create_chat_duplicate_is_noop (defaults : ChatDefaults)
    (loadOutcome : Except PyError (List Turn)) (exchangeOutcome : Except PyError String)
    (reg : Registry) (thread : DThread) (title : String) (chat : Chat)
    (h : reg.lookup thread.id = some chat) :
    create_chat defaults loadOutcome exchangeOutcome reg thread title =
      (.ok chat, reg, [.logWarning (alreadyExistsText thread.id)]) := by
  simp [create_chat, h]

/-- Witness for C1: a registry already holding thread 5 is returned as is. -/
theorem create_chat_duplicate_is_noop_witness :
    create_chat sampleDefaults (.ok []) (.ok "hi") [(5, sampleChat)] sampleThread "t" =
      (.ok sampleChat, [(5, sampleChat)], [.logWarning (alreadyExistsText 5)]) :=
  create_chat_duplicate_is_noop sampleDefaults (.ok []) (.ok "hi")
    [(5, sampleChat)] sampleThread "t" sampleChat rfl

/-- Counterexample to claim C3: when the history reload fails during
creation (thread 7 has 3 prior messages, the platform fetch raises), the
exception escapes `_create_chat` and no session exists afterwards — the
result is the propagated error and the registry still has no entry for
the thread, rather than a session in an Initializing state with empty
memory. -/
theorem history_failure_no_degraded_session :
    (create_chat sampleDefaults (.error (.apiError "history unreachable")) (.ok "hi")
        [] historyThread "t").1 = .error (.apiError "history unreachable") ∧
    ((create_chat sampleDefaults (.error (.apiError "history unreachable")) (.ok "hi")
        [] historyThread "t").2.1).lookup 7 = none := by
  constructor <;> rfl

/-- Claim C3 (amended): if the history fetch or memory reconstruction
fails during session creation, the failure propagates out of
`_create_chat` unmodified and no session is created at all: the registry
is left exactly as it was and the only visible effect is the already-sent
reloading notice.  The code does not degrade to an Initializing session
with empty memory. -/
theorem history_failure_propagates (defaults : ChatDefaults)
    (exchangeOutcome : Except PyError String) (reg : Registry) (thread : DThread)
    (title : String) (e : PyError)
    (hnone : reg.lookup thread.id = none) (hcount : 0 < thread.messageCount) :
    create_chat defaults (.error e) exchangeOutcome reg thread title =
      (.error e, reg, [.send thread.id reloadingText]) := by
  simp [create_chat, hnone, hcount, CourseAssistant.load_memory_from_thread]

/-- Witness for the amended C3: thread 7 with prior history, failing
fetch, empty registry. -/
theorem history_failure_propagates_witness :
    create_chat sampleDefaults (.error (.apiError "boom")) (.ok "hi") [] historyThread "t" =
      (.error (.apiError "boom"), [], [.send 7 reloadingText]) :=
  history_failure_propagates sampleDefaults (.ok "hi") [] historyThread "t"
    (.apiError "boom") rfl (by decide)

/-- Claim C4: whenever `_create_chat` fails, the registry after the call
equals the registry before it — no entry was inserted for the thread —
and the failure is exactly one of the underlying external failures,
propagated unmodified (and such a failure only arises on the resumption
path, before the insert). -/
theorem factory_failure_leaves_registry (defaults : ChatDefaults)
    (loadOutcome : Except PyError (List Turn)) (exchangeOutcome : Except PyError String)
    (reg : Registry) (thread : DThread) (title : String) (e : PyError)
    (hfail : (create_chat defaults loadOutcome exchangeOutcome reg thread title).1 = .error e) :
    (create_chat defaults loadOutcome exchangeOutcome reg thread title).2.1 = reg ∧
    (0 < thread.messageCount ∧ reg.lookup thread.id = none) ∧
    (loadOutcome = .error e ∨ exchangeOutcome = .error e) := by
  cases hl : reg.lookup thread.id with
  | some c => simp [create_chat, hl] at hfail
  | none =>
      by_cases hc : 0 < thread.messageCount
      · cases hload : loadOutcome with
        | error el =>
            simp [create_chat, hl, hc, CourseAssistant.load_memory_from_thread, hload] at hfail ⊢
            simp [hfail]
        | ok turns =>
            cases hex : exchangeOutcome with
            | error ee =>
                simp [create_chat, hl, hc, CourseAssistant.load_memory_from_thread, hload,
                  CourseAssistant.async_process_input, hex] at hfail ⊢
                simp [hfail]
            | ok reply =>
                simp [create_chat, hl, hc, CourseAssistant.load_memory_from_thread, hload,
                  CourseAssistant.async_process_input, hex] at hfail
      · simp [create_chat, hl, hc] at hfail

/-- Witness for C4: a failing model exchange on the resumption path
leaves the registry untouched and surfaces as exactly that error. -/
theorem factory_failure_leaves_registry_witness :
    (create_chat sampleDefaults (.ok [sampleTurn]) (.error (.apiError "rate limited"))
        [] historyThread "t").2.1 = [] ∧
    (0 < historyThread.messageCount ∧ Registry.lookup [] historyThread.id = none) ∧
    ((.ok [sampleTurn] : Except PyError (List Turn)) = .error (.apiError "rate limited") ∨
      (.error (.apiError "rate limited") : Except PyError String) = .error (.apiError "rate limited")) :=
  factory_failure_leaves_registry sampleDefaults (.ok [sampleTurn])
    (.error (.apiError "rate limited")) [] historyThread "t" (.apiError "rate limited") rfl

/-- Claim C5: for a thread with no live session, the factory performs the
history reload if and only if the platform reports a prior message count
greater than 0.  With count 0 the session is created immediately, with an
empty memory buffer and no reload activity; with count positive the
memory buffer holds the reconstructed turns (plus the time-passed
exchange) and the reload notice and banner edits were emitted.  The
decision is taken inside the single creation call: a thread that already
has a session returns early (claim C1) and never revisits it. -/
theorem history_load_iff_message_count (defaults : ChatDefaults)
    (turns : List Turn) (reply : String) (reg : Registry) (thread : DThread) (title : String)
    (hnone : reg.lookup thread.id = none) :
    (thread.messageCount = 0 →
      create_chat defaults (.ok turns) (.ok reply) reg thread title =
        (.ok (Chat.construct defaults title thread CourseAssistant.new),
         reg.insert thread.id (Chat.construct defaults title thread CourseAssistant.new), []) ∧
      (Chat.construct defaults title thread CourseAssistant.new).assistant.memory = []) ∧
    (0 < thread.messageCount →
      ∃ chat, (create_chat defaults (.ok turns) (.ok reply) reg thread title).1 = .ok chat ∧
        chat.assistant.memory =
          turns ++ [{ role := .human, text := TIME_PASSED_MESSAGE },
                    { role := .ai, text := reply }] ∧
        (create_chat defaults (.ok turns) (.ok reply) reg thread title).2.2 =
          [.send thread.id reloadingText, .edit (preText ++ "\n\n..."),
           .edit (preText ++ "\n\n" ++ reply)]) := by
  constructor
  · intro hc
    simp [create_chat, hnone, hc, Chat.construct, CourseAssistant.new]
  · intro hc
    refine ⟨Chat.construct defaults title thread
      { memory := turns ++ [{ role := .human, text := TIME_PASSED_MESSAGE },
                            { role := .ai, text := reply }] }, ?_, ?_, ?_⟩ <;>
      simp [create_chat, hnone, hc, CourseAssistant.load_memory_from_thread,
        CourseAssistant.async_process_input, Chat.construct, CourseAssistant.new]

/-- Witness for C5, resumption side: three prior messages, successful
reload and exchange. -/
theorem history_load_iff_message_count_witness :
    ∃ chat, (create_chat sampleDefaults (.ok [sampleTurn]) (.ok "hello") [] historyThread "t").1 =
        .ok chat ∧
      chat.assistant.memory =
        [sampleTurn] ++ [{ role := .human, text := TIME_PASSED_MESSAGE },
                         { role := .ai, text := "hello" }] ∧
      (create_chat sampleDefaults (.ok [sampleTurn]) (.ok "hello") [] historyThread "t").2.2 =
        [.send historyThread.id reloadingText, .edit (preText ++ "\n\n..."),
         .edit (preText ++ "\n\n" ++ "hello")] :=
  (history_load_iff_message_count sampleDefaults [sampleTurn] "hello" [] historyThread "t"
    rfl).2 (by decide)

/-- Claim C6: when the model exchange inside `_async_send_message_to_bot`
fails, the failure is surfaced to the end user — the pending message is
edited into the visible error text — never swallowed, and the chat object
is returned exactly as it was (the function never touches
`_active_threads`, so the session binding is intact and its memory does
not contain the failed turn); the second conjunct shows the next turn on
that same chat then proceeds normally, appending the human input and the
reply. -/
theorem exchange_failure_surfaced (e : PyError) (chat : Chat)
    (input_text next_reply : String) :
    async_send_message_to_bot (.error e) chat input_text =
      (chat, [.send chat.threadId awaitingText, .logError (errText e),
              .edit (errorReplyText (errText e))]) ∧
    (async_send_message_to_bot (.ok next_reply) chat input_text).1.assistant.memory =
      chat.assistant.memory ++ [{ role := .human, text := input_text },
                                { role := .ai, text := next_reply }] := by
  constructor <;>
    simp [async_send_message_to_bot, CourseAssistant.async_process_input]

/-- Claim C8 (refuted): the pydantic defaults for `started_at` and
`chat_id` were evaluated once, when the `Chat` class body ran at import
time; a construction does not consult the construction-time clock or
draw a fresh uuid.  Two instances constructed at any two times and with
any two would-be-fresh uuids carry identical `started_at` and `chat_id`,
namely the class-definition-time values. -/
theorem chat_defaults_shared_across_instances (defaults : ChatDefaults)
    (now1 now2 : String) (u1 u2 : Nat) (title1 title2 : String)
    (th1 th2 : DThread) (a1 a2 : CourseAssistant) :
    (Chat.construct_at defaults now1 u1 title1 th1 a1).started_at =
      (Chat.construct_at defaults now2 u2 title2 th2 a2).started_at ∧
    (Chat.construct_at defaults now1 u1 title1 th1 a1).chat_id =
      (Chat.construct_at defaults now2 u2 title2 th2 a2).chat_id ∧
    (Chat.construct_at defaults now1 u1 title1 th1 a1).started_at = defaults.started_at ∧
    (Chat.construct_at defaults now1 u1 title1 th1 a1).chat_id = defaults.chat_id :=
  ⟨rfl, rfl, rfl, rfl⟩

/-- Claim C9: a reaction from the bot itself, with the wrong emoji, or
from a non-admin user is silently ignored by `on_raw_reaction_add`: the
registry is unchanged (no session, no thread spawn, no send) and the
only possible output is an info-level log line for the non-admin case —
never an error log or console print. -/
theorem unauthorized_reaction_silently_ignored (defaults : ChatDefaults)
    (loadOutcome : Except PyError (List Turn)) (ce de : Except PyError String)
    (fetchOutcome : Except PyError DMessage) (newThread : DThread) (admins : List Nat)
    (botUserId : Nat) (botName : String) (reg : Registry) (payload : ReactionPayload)
    (h : payload.user_id = botUserId ∨ payload.emoji_name ≠ brainEmoji ∨
      payload.user_id ∉ admins) :
    on_raw_reaction_add defaults loadOutcome ce de fetchOutcome newThread admins
        botUserId botName reg payload = (reg, []) ∨
    on_raw_reaction_add defaults loadOutcome ce de fetchOutcome newThread admins
        botUserId botName reg payload =
      (reg, [.logInfo (notAdminText payload.user_id)]) := by
  by_cases h1 : payload.user_id = botUserId
  · left
    simp [on_raw_reaction_add, h1]
  · by_cases h2 : payload.emoji_name = brainEmoji
    · have h3 : payload.user_id ∉ admins := by
        rcases h with h | h | h
        · exact absurd h h1
        · exact absurd h2 h
        · exact h
      right
      simp [on_raw_reaction_add, h1, h2, h3]
    · left
      simp [on_raw_reaction_add, h1, h2]

/-- Witness for C9: user 99 is not among the admins, reacting with the
trigger emoji: the registry stays empty and only an info line is logged. -/
theorem unauthorized_reaction_silently_ignored_witness :
    on_raw_reaction_add sampleDefaults (.ok []) (.ok "a") (.ok "b")
        (.error .indexError) sampleThread [1] 2 "bot" []
        { user_id := 99, emoji_name := brainEmoji, channel_id := 3, message_id := 4 } =
      ([], []) ∨
    on_raw_reaction_add sampleDefaults (.ok []) (.ok "a") (.ok "b")
        (.error .indexError) sampleThread [1] 2 "bot" []
        { user_id := 99, emoji_name := brainEmoji, channel_id := 3, message_id := 4 } =
      ([], [.logInfo (notAdminText 99)]) :=
  unauthorized_reaction_silently_ignored sampleDefaults (.ok []) (.ok "a") (.ok "b")
    (.error .indexError) sampleThread [1] 2 "bot" []
    { user_id := 99, emoji_name := brainEmoji, channel_id := 3, message_id := 4 }
    (Or.inr (Or.inr (by decide)))

/-- Claim C10: a message with empty text in a bot-owned thread from a
non-bot author reaches the unguarded `message.content[0]` test and
raises IndexError: the handler neither processes nor ignores the
message, the exception propagates, and the registry is untouched. -/
theorem on_message_empty_content_raises (defaults : ChatDefaults)
    (loadOutcome : Except PyError (List Turn)) (ce de : Except PyError String)
    (botUserId : Nat) (botName : String) (reg : Registry)
    (authorId : Nat) (authorName : String) (thread : DThread)
    (h1 : authorId ≠ botUserId) (h2 : thread.ownerId = botUserId) :
    on_message defaults loadOutcome ce de botUserId botName reg
        { authorId := authorId, authorName := authorName,
          channel := .thread thread, content := "" } =
      (.error .indexError, reg, [.logInfo (receivedText "")]) := by
  simp [on_message, h1, h2]

/-- Witness for C10: the empty message in bot-owned thread 5 from user 9. -/
theorem on_message_empty_content_raises_witness :
    on_message sampleDefaults (.ok []) (.ok "a") (.ok "b") 1 "bot" []
        { authorId := 9, authorName := "u", channel := .thread sampleThread, content := "" } =
      (.error .indexError, [], [.logInfo (receivedText "")]) :=
  on_message_empty_content_raises sampleDefaults (.ok []) (.ok "a") (.ok "b") 1 "bot" []
    9 "u" sampleThread (by decide) rfl

/-
  Concurrency: the get-or-create race.
-/

/-- One step of one caller preserves the atomicity invariant, provided
the thread has no prior messages (the creation path then has no
suspension between the registry check and the insert). -/
theorem createStep_preserves_atomicInv (defaults : ChatDefaults) (thread : DThread)
    (hcount : thread.messageCount = 0) (g : GlobalState) (ts : List TaskCtx)
    (t : TaskCtx) (i : Nat) (hti : ts[i]? = some t)
    (hinv : AtomicInv thread g ts) :
    AtomicInv thread (createStep defaults thread g t).1
      (ts.set i (createStep defaults thread g t).2) := by
  have htmem : t ∈ ts := by
    obtain ⟨hlt, he⟩ := List.getElem?_eq_some.mp hti
    exact he ▸ List.getElem_mem hlt
  rcases hinv with ⟨hreg, hcre, hready⟩ | ⟨c, hreg, hcre, hobs⟩
  · have ht : t.task = CreateTask.ready := hready t htmem
    right
    refine ⟨Chat.construct defaults t.title thread CourseAssistant.new, ?_, ?_, ?_⟩
    · simp [createStep, ht, hreg, hcount, Registry.lookup_insert_self]
    · simp [createStep, ht, hreg, hcount, hcre]
    · intro t2 ht2
      rcases List.mem_or_eq_of_mem_set ht2 with hmem | heq
      · exact Or.inl (hready t2 hmem)
      · right
        rw [heq]
        simp [createStep, ht, hreg, hcount]
  · rcases hobs t htmem with ht | ht
    · right
      refine ⟨c, ?_, ?_, ?_⟩
      · simp [createStep, ht, hreg]
      · simp [createStep, ht, hreg, hcre]
      · intro t2 ht2
        rcases List.mem_or_eq_of_mem_set ht2 with hmem | heq
        · exact hobs t2 hmem
        · right
          rw [heq]
          simp [createStep, ht, hreg]
    · right
      refine ⟨c, ?_, ?_, ?_⟩
      · simp [createStep, ht, hreg]
      · simp [createStep, ht, hcre]
      · intro t2 ht2
        rcases List.mem_or_eq_of_mem_set ht2 with hmem | heq
        · exact hobs t2 hmem
        · right
          rw [heq]
          simp [createStep, ht]

/-- The atomicity invariant is preserved along any schedule when the
thread has no prior messages. -/
theorem runSchedule_preserves_atomicInv (defaults : ChatDefaults) (thread : DThread)
    (hcount : thread.messageCount = 0) :
    ∀ (sched : List Nat) (g : GlobalState) (ts : List TaskCtx),
      AtomicInv thread g ts →
      AtomicInv thread (runSchedule defaults thread sched g ts).1
        (runSchedule defaults thread sched g ts).2 := by
  intro sched
  induction sched with
  | nil => intro g ts h; simpa [runSchedule] using h
  | cons i rest ih =>
      intro g ts h
      cases hti : ts[i]? with
      | none => simpa [runSchedule, hti] using ih g ts h
      | some t =>
          have hstep := createStep_preserves_atomicInv defaults thread hcount g ts t i hti h
          simpa [runSchedule, hti] using
            ih (createStep defaults thread g t).1 (ts.set i (createStep defaults thread g t).2) hstep

/-- Claim C2 (amended): the check-then-insert in `_create_chat` is atomic
only when no `await` separates them, i.e. when the platform reports no
prior messages for the thread.  In that case, for any number of
concurrent callers and any interleaving, at most one Chat is ever
constructed and every caller that finishes successfully observes that
same Chat.  (With prior messages the step is not atomic — see the
counterexample, where two callers each run the factory.) -/
theorem concurrent_create_atomic_when_no_history (defaults : ChatDefaults) (thread : DThread)
    (sched : List Nat) (ts : List TaskCtx) (reg : Registry)
    (hcount : thread.messageCount = 0)
    (hreg : reg.lookup thread.id = none)
    (hready : ∀ t ∈ ts, t.task = CreateTask.ready) :
    (runSchedule defaults thread sched
        { reg := reg, actions := [], created := [] } ts).1.created.length ≤ 1 ∧
    (∀ t1 ∈ (runSchedule defaults thread sched
        { reg := reg, actions := [], created := [] } ts).2,
     ∀ t2 ∈ (runSchedule defaults thread sched
        { reg := reg, actions := [], created := [] } ts).2,
     ∀ c1 c2, t1.task = CreateTask.done (.ok c1) → t2.task = CreateTask.done (.ok c2) →
       c1 = c2) := by
  have hinv := runSchedule_preserves_atomicInv defaults thread hcount sched
    { reg := reg, actions := [], created := [] } ts (Or.inl ⟨hreg, rfl, hready⟩)
  rcases hinv with ⟨_, hcre, hrdy⟩ | ⟨c, _, hcre, hobs⟩
  · constructor
    · simp [hcre]
    · intro t1 h1 t2 h2 c1 c2 hc1 hc2
      rw [hrdy t1 h1] at hc1
      cases hc1
  · constructor
    · simp [hcre]
    · intro t1 h1 t2 h2 c1 c2 hc1 hc2
      rcases hobs t1 h1 with h | h
      · rw [h] at hc1; cases hc1
      · rcases hobs t2 h2 with h2x | h2x
        · rw [h2x] at hc2; cases hc2
        · have e1 : CreateTask.done (Except.ok c) = CreateTask.done (Except.ok c1) :=
            h.symm.trans hc1
          have e2 : CreateTask.done (Except.ok c) = CreateTask.done (Except.ok c2) :=
            h2x.symm.trans hc2
          injection e1 with e1x
          injection e2 with e2x
          injection e1x with e1y
          injection e2x with e2y
          rw [← e1y, ← e2y]

/-- Witness for the amended C2: two callers, thread with no prior
messages, alternating schedule. -/
theorem concurrent_create_atomic_when_no_history_witness :
    (runSchedule sampleDefaults sampleThread [0, 1, 0, 1]
        { reg := [], actions := [], created := [] } [taskA, taskB]).1.created.length ≤ 1 ∧
    (∀ t1 ∈ (runSchedule sampleDefaults sampleThread [0, 1, 0, 1]
        { reg := [], actions := [], created := [] } [taskA, taskB]).2,
     ∀ t2 ∈ (runSchedule sampleDefaults sampleThread [0, 1, 0, 1]
        { reg := [], actions := [], created := [] } [taskA, taskB]).2,
     ∀ c1 c2, t1.task = CreateTask.done (.ok c1) → t2.task = CreateTask.done (.ok c2) →
       c1 = c2) :=
  concurrent_create_atomic_when_no_history sampleDefaults sampleThread [0, 1, 0, 1]
    [taskA, taskB] [] rfl rfl
    (by
      intro t ht
      rcases List.mem_cons.mp ht with h | ht
      · rw [h]; rfl
      rcases List.mem_cons.mp ht with h | ht
      · rw [h]; rfl
      · cases ht)

/-- Counterexample to claim C2: for a thread with one prior message the
factory path suspends at its awaits, so two concurrent triggers for the
same thread can both pass the registry check before either inserts.
Under the alternating schedule both callers complete the factory: two
Chat objects are constructed (and each caller returns its own), not
exactly one. -/
theorem concurrent_create_double_session :
    (runSchedule sampleDefaults raceThread [0, 1, 0, 1, 0, 1, 0, 1, 0, 1, 0, 1]
        { reg := [], actions := [], created := [] } [taskA, taskB]).1.created.length = 2 ∧
    ((runSchedule sampleDefaults raceThread [0, 1, 0, 1, 0, 1, 0, 1, 0, 1, 0, 1]
        { reg := [], actions := [], created := [] } [taskA, taskB]).1.created.map
      Chat.title) = ["t1", "t2"] := by
  constructor <;> rfl

/-
  No handler ever removes a registry entry.
-/

/-- An extension of a registry keeps every present binding present. -/
theorem Extends.lookup_preserved {reg reg2 : Registry} (hx : Extends reg reg2)
    (id : Nat) (c : Chat) (h : reg.lookup id = some c) :
    ∃ c1, reg2.lookup id = some c1 := by
  induction hx with
  | refl => exact ⟨c, h⟩
  | insert reg1 k x _ ih =>
      obtain ⟨c1, hc1⟩ := ih
      exact Registry.lookup_insert_preserves reg1 id k c1 x hc1

/-- `_create_chat` only ever extends the dict. -/
theorem create_chat_extends (d : ChatDefaults) (lo : Except PyError (List Turn))
    (eo : Except PyError String) (reg : Registry) (thread : DThread) (title : String) :
    Extends reg ((create_chat d lo eo reg thread title).2.1) := by
  cases hl : reg.lookup thread.id with
  | some c => simpa [create_chat, hl] using Extends.refl
  | none =>
      by_cases hc : thread.messageCount > 0
      · cases hload : lo with
        | error e =>
            simpa [create_chat, hl, hc, hload, CourseAssistant.load_memory_from_thread]
              using Extends.refl
        | ok turns =>
            cases hex : eo with
            | error e =>
                simpa [create_chat, hl, hc, hload, hex,
                  CourseAssistant.load_memory_from_thread,
                  CourseAssistant.async_process_input] using Extends.refl
            | ok reply =>
                simpa [create_chat, hl, hc, hload, hex,
                  CourseAssistant.load_memory_from_thread,
                  CourseAssistant.async_process_input]
                  using Extends.insert _ _ _ Extends.refl
      · simpa [create_chat, hl, hc] using Extends.insert _ _ _ Extends.refl

/-- `_spawn_thread` only ever extends the dict. -/
theorem spawn_thread_extends (d : ChatDefaults) (lo : Except PyError (List Turn))
    (ce de : Except PyError String) (newThread : DThread) (botName : String)
    (reg : Registry) (authorName : String) (txt : Option String) :
    Extends reg ((spawn_thread d lo ce de newThread botName reg authorName txt).2.1) := by
  have hcx := create_chat_extends d lo ce reg newThread
    (create_chat_title_string authorName botName)
  unfold spawn_thread
  cases hcc : create_chat d lo ce reg newThread
      (create_chat_title_string authorName botName) with
  | mk r p =>
      cases p with
      | mk reg1 acts =>
          rw [hcc] at hcx
          simp only at hcx
          cases r with
          | error e => simpa [hcc] using hcx
          | ok chat =>
              cases txt with
              | some text => simpa [hcc] using Extends.insert _ _ _ hcx
              | none => simpa [hcc] using Extends.insert _ _ _ hcx

/-- `on_message` only ever extends the dict. -/
theorem on_message_extends (d : ChatDefaults) (lo : Except PyError (List Turn))
    (ce de : Except PyError String) (botId : Nat) (botName : String)
    (reg : Registry) (msg : DMessage) :
    Extends reg ((on_message d lo ce de botId botName reg msg).2.1) := by
  unfold on_message
  by_cases h1 : msg.authorId = botId
  · simpa [h1] using Extends.refl
  · cases hch : msg.channel with
    | other cid => simpa [h1] using Extends.refl
    | thread thread =>
        by_cases h2 : thread.ownerId ≠ botId
        · simpa [h1, h2] using Extends.refl
        · cases hdata : msg.content.data with
          | nil => simpa [h1, h2, hdata] using Extends.refl
          | cons cfirst rest =>
              by_cases h3 : cfirst = '~'
              · simpa [h1, h2, hdata, h3] using Extends.refl
              · cases hl : reg.lookup thread.id with
                | some chat =>
                    simpa [h1, h2, hdata, h3, hl]
                      using Extends.insert _ _ _ Extends.refl
                | none =>
                    have hcx := create_chat_extends d lo ce reg thread
                      (create_chat_title_string msg.authorName botName)
                    cases hcc : create_chat d lo ce reg thread
                        (create_chat_title_string msg.authorName botName) with
                    | mk r p =>
                        cases p with
                        | mk reg1 acts =>
                            rw [hcc] at hcx
                            simp only at hcx
                            cases r with
                            | error e =>
                                simpa [h1, h2, hdata, h3, hl, hcc] using hcx
                            | ok chat =>
                                simpa [h1, h2, hdata, h3, hl, hcc]
                                  using Extends.insert _ _ _ hcx

/-- `on_raw_reaction_add` only ever extends the dict. -/
theorem on_raw_reaction_add_extends (d : ChatDefaults) (lo : Except PyError (List Turn))
    (ce de : Except PyError String) (fo : Except PyError DMessage)
    (newThread : DThread) (admins : List Nat) (botId : Nat) (botName : String)
    (reg : Registry) (payload : ReactionPayload) :
    Extends reg
      ((on_raw_reaction_add d lo ce de fo newThread admins botId botName reg payload).1) := by
  unfold on_raw_reaction_add
  by_cases h1 : payload.user_id = botId
  · simpa [h1] using Extends.refl
  · by_cases h2 : payload.emoji_name ≠ brainEmoji
    · simpa [h1, h2] using Extends.refl
    · by_cases h3 : payload.user_id ∉ admins
      · simpa [h1, h2, h3] using Extends.refl
      · cases hfo : fo with
        | error e => simpa [h1, h2, h3, hfo] using Extends.refl
        | ok message =>
            have hsx := spawn_thread_extends d lo ce de newThread botName reg
              message.authorName (some message.content)
            cases hss : spawn_thread d lo ce de newThread botName reg
                message.authorName (some message.content) with
            | mk r p =>
                cases p with
                | mk reg1 acts =>
                    rw [hss] at hsx
                    simp only at hsx
                    cases r with
                    | error e => simpa [h1, h2, h3, hfo, hss] using hsx
                    | ok u => simpa [h1, h2, h3, hfo, hss] using hsx

/-- The `/chat` slash command only ever extends the dict. -/
theorem chat_command_extends (d : ChatDefaults) (lo : Except PyError (List Turn))
    (ce de : Except PyError String) (newThread : DThread) (allowed : List Nat)
    (botName : String) (reg : Registry) (ctxChannelId : Nat) (userName : String)
    (txt : Option String) :
    Extends reg
      ((chat_command d lo ce de newThread allowed botName reg ctxChannelId userName txt).2.1) := by
  unfold chat_command
  by_cases h1 : ctxChannelId ∉ allowed
  · simpa [h1] using Extends.refl
  · have hsx := spawn_thread_extends d lo ce de newThread botName reg userName txt
    cases hss : spawn_thread d lo ce de newThread botName reg userName txt with
    | mk r p =>
        cases p with
        | mk reg1 acts =>
            rw [hss] at hsx
            simp only at hsx
            simpa [h1, hss] using hsx

/-- Claim C7 (amended): there is no idle eviction — the Chat record keeps
no lastActivityAt and no code path removes a dict entry.  An existing
session survives every handler invocation, whatever its inputs; entries
leave `_active_threads` only when process shutdown discards the whole
in-memory dict. -/
theorem registry_entries_never_removed (d : ChatDefaults)
    (lo : Except PyError (List Turn)) (ce de : Except PyError String)
    (fo : Except PyError DMessage) (newThread : DThread)
    (admins allowed : List Nat) (botId : Nat) (botName : String)
    (reg : Registry) (msg : DMessage) (payload : ReactionPayload)
    (ctxChannelId : Nat) (userName : String) (txt : Option String)
    (id : Nat) (c : Chat) (h : reg.lookup id = some c) :
    (∃ c1, ((on_message d lo ce de botId botName reg msg).2.1).lookup id = some c1) ∧
    (∃ c2, ((on_raw_reaction_add d lo ce de fo newThread admins botId botName
        reg payload).1).lookup id = some c2) ∧
    (∃ c3, ((chat_command d lo ce de newThread allowed botName reg ctxChannelId
        userName txt).2.1).lookup id = some c3) :=
  ⟨(on_message_extends d lo ce de botId botName reg msg).lookup_preserved id c h,
   (on_raw_reaction_add_extends d lo ce de fo newThread admins botId botName
      reg payload).lookup_preserved id c h,
   (chat_command_extends d lo ce de newThread allowed botName reg ctxChannelId
      userName txt).lookup_preserved id c h⟩

/-- Witness for the amended C7 at a concrete state with a live session. -/
theorem registry_entries_never_removed_witness :
    (∃ c1, ((on_message sampleDefaults (.ok []) (.ok "r1") (.ok "r2") 1 "bot"
        [(5, sampleChat)]
        { authorId := 9, authorName := "u",
          channel := .thread { id := 6, ownerId := 1, messageCount := 0 },
          content := "hello" }).2.1).lookup 5 = some c1) ∧
    (∃ c2, ((on_raw_reaction_add sampleDefaults (.ok []) (.ok "r1") (.ok "r2")
        (.ok { authorId := 9, authorName := "u2", channel := .other 3, content := "go" })
        { id := 8, ownerId := 1, messageCount := 0 } [9] 1 "bot" [(5, sampleChat)]
        { user_id := 9, emoji_name := brainEmoji, channel_id := 3,
          message_id := 4 }).1).lookup 5 = some c2) ∧
    (∃ c3, ((chat_command sampleDefaults (.ok []) (.ok "r1") (.ok "r2")
        { id := 8, ownerId := 1, messageCount := 0 } [3] "bot" [(5, sampleChat)]
        3 "u3" none).2.1).lookup 5 = some c3) :=
  registry_entries_never_removed sampleDefaults (.ok []) (.ok "r1") (.ok "r2")
    (.ok { authorId := 9, authorName := "u2", channel := .other 3, content := "go" })
    { id := 8, ownerId := 1, messageCount := 0 } [9] [3] 1 "bot" [(5, sampleChat)]
    { authorId := 9, authorName := "u",
      channel := .thread { id := 6, ownerId := 1, messageCount := 0 },
      content := "hello" }
    { user_id := 9, emoji_name := brainEmoji, channel_id := 3, message_id := 4 }
    3 "u3" none 5 sampleChat rfl

/-- Counterexample to claim C7: a session that stays idle while later
traffic is handled (a message creating a session in another thread, then
an admin reaction spawning a third) is still in the registry afterwards,
bound to the very same chat: no amount of elapsed activity evicts it,
because no eviction code exists and the Chat record stores no
lastActivityAt to compare against a threshold. -/
theorem no_idle_eviction :
    ((on_raw_reaction_add sampleDefaults (.ok []) (.ok "r3") (.ok "r4")
        (.ok { authorId := 9, authorName := "u2", channel := .other 3,
               content := "spawn me" })
        { id := 8, ownerId := 1, messageCount := 0 } [9] 1 "bot"
        ((on_message sampleDefaults (.ok []) (.ok "r1") (.ok "r2") 1 "bot"
            [(5, sampleChat)]
            { authorId := 9, authorName := "u",
              channel := .thread { id := 6, ownerId := 1, messageCount := 0 },
              content := "hello" }).2.1)
        { user_id := 9, emoji_name := brainEmoji, channel_id := 3,
          message_id := 4 }).1).lookup 5 = some sampleChat := by
  rfl

/-- Soundness of the small-step model: one caller stepped alone through
all six suspension points produces exactly the registry, action trace and
result of `create_chat`. -/
theorem runSchedule_single_agrees_create_chat (defaults : ChatDefaults)
    (thread : DThread) (env : TaskEnv) (title : String) (reg : Registry) :
    (runSchedule defaults thread [0, 0, 0, 0, 0, 0]
        { reg := reg, actions := [], created := [] }
        [{ env := env, title := title, task := .ready }]).1.reg =
      (create_chat defaults env.loadOutcome env.exchangeOutcome reg thread title).2.1 ∧
    (runSchedule defaults thread [0, 0, 0, 0, 0, 0]
        { reg := reg, actions := [], created := [] }
        [{ env := env, title := title, task := .ready }]).1.actions =
      (create_chat defaults env.loadOutcome env.exchangeOutcome reg thread title).2.2 ∧
    (runSchedule defaults thread [0, 0, 0, 0, 0, 0]
        { reg := reg, actions := [], created := [] }
        [{ env := env, title := title, task := .ready }]).2 =
      [{ env := env, title := title,
         task := .done (create_chat defaults env.loadOutcome env.exchangeOutcome
           reg thread title).1 }] := by
  cases hl : reg.lookup thread.id with
  | some c =>
      refine ⟨?_, ?_, ?_⟩ <;> simp [runSchedule, createStep, create_chat, hl]
  | none =>
      by_cases hc : thread.messageCount > 0
      · cases hload : env.loadOutcome with
        | error e =>
            refine ⟨?_, ?_, ?_⟩ <;>
              simp [runSchedule, createStep, create_chat, hl, hc, hload,
                CourseAssistant.load_memory_from_thread]
        | ok turns =>
            cases hex : env.exchangeOutcome with
            | error e =>
                refine ⟨?_, ?_, ?_⟩ <;>
                  simp [runSchedule, createStep, create_chat, hl, hc, hload, hex,
                    CourseAssistant.load_memory_from_thread,
                    CourseAssistant.async_process_input]
            | ok reply =>
                refine ⟨?_, ?_, ?_⟩ <;>
                  simp [runSchedule, createStep, create_chat, hl, hc, hload, hex,
                    CourseAssistant.load_memory_from_thread,
                    CourseAssistant.async_process_input]
      · refine ⟨?_, ?_, ?_⟩ <;> simp [runSchedule, createStep, create_chat, hl, hc]

end ChatCog
